import Mathlib

/-!
Shallow embedding of the asynchronous task queue of
`src/src/core/queue.py` (classes `QueuePriority`, `QueueTask`, `AsyncQueue`).

Timestamps (`datetime`) are modelled as natural numbers of epoch seconds;
`datetime.utcnow()` is threaded through as an explicit `now` parameter.
The Redis store is modelled as explicit state: each per-queue, per-priority
ready list is a Lean list with `lpush` prepending and `brpop` taking the
last element; the scheduled sorted set is a list of (member, score) pairs
kept in ascending score order; the processing set is a duplicate-free list;
the failed list is a list with `lpush` prepending.  Python exceptions that
the code catches are modelled with `Option` where they change behaviour
(`QueuePriority(value)` lookup failing on an unknown string).
-/

namespace EcommerceQueue

/-- `QueuePriority` enum of queue.py (values "low", "normal", "high", "critical"). -/
inductive QueuePriority where
  | low
  | normal
  | high
  | critical
deriving DecidableEq, Repr

/-- `.value` of a `QueuePriority` member. -/
def QueuePriority.value : QueuePriority → String
  | .low => "low"
  | .normal => "normal"
  | .high => "high"
  | .critical => "critical"

/-- `QueuePriority(s)`: enum lookup by value; `none` models the `ValueError`
raised on an unknown string. -/
def QueuePriority.ofValue (s : String) : Option QueuePriority :=
  if s = "low" then some .low
  else if s = "normal" then some .normal
  else if s = "high" then some .high
  else if s = "critical" then some .critical
  else none

/-- The `QueueTask` dataclass.  `payload` (a JSON-compatible dict, opaque to
the dispatcher) is modelled as a `String`. -/
structure QueueTask where
  id : String
  queue_name : String
  task_type : String
  payload : String
  priority : QueuePriority := .normal
  max_retries : Nat := 3
  retry_count : Nat := 0
  delay_seconds : Nat := 0
  created_at : Nat
  scheduled_at : Nat
deriving DecidableEq, Repr

/-- The `QueueTask` dataclass constructor together with `__post_init__`:
`created_at` defaults to `datetime.utcnow()` (the `now` argument) and
`scheduled_at` defaults to `created_at + delay_seconds`.  The body performs
no validation of any field. -/
def mk_queue_task (now : Nat) (id queue_name task_type payload : String)
    (priority : QueuePriority) (max_retries retry_count delay_seconds : Nat)
    (created_at scheduled_at : Option Nat) : QueueTask :=
  let c := created_at.getD now
  { id := id, queue_name := queue_name, task_type := task_type,
    payload := payload, priority := priority, max_retries := max_retries,
    retry_count := retry_count, delay_seconds := delay_seconds,
    created_at := c, scheduled_at := scheduled_at.getD (c + delay_seconds) }

/-- The serialized task record (the dict built by `enqueue` and by
`_task_to_dict`, stored as a JSON string in Redis).  Note that it has no
`delay_seconds` field. -/
structure TaskDict where
  id : String
  queue_name : String
  task_type : String
  payload : String
  priority : String
  max_retries : Nat
  retry_count : Nat
  created_at : Nat
  scheduled_at : Nat
deriving DecidableEq, Repr

/-- An entry of the failed list: `_task_to_dict(task)` extended with
`error_message` and `failed_at` (`fail_task`, terminal branch). -/
structure FailedRecord where
  task : TaskDict
  error_message : Option String
  failed_at : Nat
deriving DecidableEq, Repr

/-- The Redis state visible to `AsyncQueue`: ready lists keyed by
`queue:{queue_name}:{priority}`, scheduled sorted sets keyed by
`scheduled:{queue_name}`, processing sets keyed by
`processing:{queue_name}`, failed lists keyed by `failed:{queue_name}`. -/
@[ext]
structure QueueState where
  ready : String × QueuePriority → List TaskDict
  scheduled : String → List (TaskDict × Nat)
  processing : String → List TaskDict
  failed : String → List FailedRecord

/-- A fresh Redis store with every key empty. -/
def emptyState : QueueState :=
  { ready := fun _ => [], scheduled := fun _ => [],
    processing := fun _ => [], failed := fun _ => [] }

/-- Point update of a keyed family (a write to one Redis key). -/
def updateFn {α β : Type} [DecidableEq α] (f : α → β) (a : α) (b : β) : α → β :=
  fun x => if x = a then b else f x

/-- `ZADD`-insertion keeping the scheduled set in ascending score order
(a new member goes after existing members of equal score). -/
def insertByScore : List (TaskDict × Nat) → TaskDict → Nat → List (TaskDict × Nat)
  | [], d, sc => [(d, sc)]
  | e :: rest, d, sc =>
    if sc < e.2 then (d, sc) :: e :: rest else e :: insertByScore rest d sc

/-- `ZADD`: a sorted set holds each member once; re-adding replaces the
member's score. -/
def zadd (l : List (TaskDict × Nat)) (d : TaskDict) (sc : Nat) :
    List (TaskDict × Nat) :=
  insertByScore (l.filter (fun e => e.1 ≠ d)) d sc

/-- `ZREM`: remove a member from the sorted set. -/
def zrem (l : List (TaskDict × Nat)) (d : TaskDict) : List (TaskDict × Nat) :=
  l.filter (fun e => e.1 ≠ d)

/-- `SADD`: add to a set (no duplicates). -/
def sadd (l : List TaskDict) (d : TaskDict) : List TaskDict :=
  if d ∈ l then l else d :: l

/-- `SREM`: remove a member from a set. -/
def srem (l : List TaskDict) (d : TaskDict) : List TaskDict :=
  l.filter (fun x => x ≠ d)

/-- The task record that `AsyncQueue.enqueue` builds inline (its local
`task_data` dict). -/
def enqueue_task_data (t : QueueTask) : TaskDict :=
  { id := t.id, queue_name := t.queue_name, task_type := t.task_type,
    payload := t.payload, priority := t.priority.value,
    max_retries := t.max_retries, retry_count := t.retry_count,
    created_at := t.created_at, scheduled_at := t.scheduled_at }

/-- `AsyncQueue._task_to_dict`. -/
def task_to_dict (t : QueueTask) : TaskDict :=
  { id := t.id, queue_name := t.queue_name, task_type := t.task_type,
    payload := t.payload, priority := t.priority.value,
    max_retries := t.max_retries, retry_count := t.retry_count,
    created_at := t.created_at, scheduled_at := t.scheduled_at }

/-- `AsyncQueue._dict_to_task`.  All constructor arguments are supplied
except `delay_seconds`, which keeps its dataclass default `0`; `none`
models the `ValueError` of `QueuePriority(task_dict["priority"])` on an
unknown priority string. -/
def dict_to_task (d : TaskDict) : Option QueueTask :=
  (QueuePriority.ofValue d.priority).map fun p =>
    { id := d.id, queue_name := d.queue_name, task_type := d.task_type,
      payload := d.payload, priority := p, max_retries := d.max_retries,
      retry_count := d.retry_count, created_at := d.created_at,
      scheduled_at := d.scheduled_at }

/-- `AsyncQueue.enqueue`: a task with `delay_seconds > 0` is `ZADD`ed to
the scheduled set scored by `scheduled_at`; otherwise its record is
`LPUSH`ed to the ready list of its queue and priority.  In this model the
store is always reachable, so the `except` branch returning `False` is
unreachable and the result is `true`. -/
def enqueue (s : QueueState) (t : QueueTask) : Bool × QueueState :=
  let task_data := enqueue_task_data t
  if t.delay_seconds > 0 then
    let sched := zadd (s.scheduled t.queue_name) task_data t.scheduled_at
    (true, { s with scheduled := updateFn s.scheduled t.queue_name sched })
  else
    let l := task_data :: s.ready (t.queue_name, t.priority)
    (true, { s with ready := updateFn s.ready (t.queue_name, t.priority) l })

/-- The loop body of `AsyncQueue._process_scheduled_tasks` over the due
entries: each is `ZREM`ed from the scheduled set, its priority string is
parsed back, and the record is `LPUSH`ed onto the ready list of that
priority.  A failing priority parse raises, which the surrounding
`except` catches, abandoning the rest of the loop. -/
def sweep_loop (queue_name : String) :
    List (TaskDict × Nat) → QueueState → QueueState
  | [], st => st
  | (d, _) :: rest, st =>
    let sch := zrem (st.scheduled queue_name) d
    let st1 : QueueState :=
      { st with scheduled := updateFn st.scheduled queue_name sch }
    match QueuePriority.ofValue d.priority with
    | none => st1
    | some p =>
      let l := d :: st1.ready (queue_name, p)
      sweep_loop queue_name rest
        { st1 with ready := updateFn st1.ready (queue_name, p) l }

/-- `AsyncQueue._process_scheduled_tasks`: `ZRANGEBYSCORE scheduled 0 now`
selects every entry with score at most `now` (scores are naturals, so the
lower bound 0 is vacuous), then the loop moves each to its ready list. -/
def process_scheduled_tasks (s : QueueState) (queue_name : String) (now : Nat) :
    QueueState :=
  sweep_loop queue_name ((s.scheduled queue_name).filter (fun e => e.2 ≤ now)) s

/-- The priority scan order of `AsyncQueue.dequeue`. -/
def priorityOrder : List QueuePriority := [.critical, .high, .normal, .low]

/-- The `for priority in [...]` loop of `AsyncQueue.dequeue`: `BRPOP` each
ready list in turn; on the first hit, `SADD` the popped record to the
processing set and return `_dict_to_task` of it (a parse failure there is
caught by the `except`, returning `None` with the state changes kept). -/
def pop_loop (queue_name : String) :
    QueueState → List QueuePriority → Option QueueTask × QueueState
  | s, [] => (none, s)
  | s, p :: rest =>
    match (s.ready (queue_name, p)).getLast? with
    | none => pop_loop queue_name s rest
    | some d =>
      let l := (s.ready (queue_name, p)).dropLast
      let s1 : QueueState := { s with ready := updateFn s.ready (queue_name, p) l }
      let pr := sadd (s1.processing queue_name) d
      let s2 : QueueState :=
        { s1 with processing := updateFn s1.processing queue_name pr }
      (dict_to_task d, s2)

/-- `AsyncQueue.dequeue`: run the scheduled sweep, then scan the ready
lists from CRITICAL down to LOW.  The blocking-pop timeout only bounds
waiting and has no effect on this state model. -/
def dequeue (s : QueueState) (queue_name : String) (now : Nat) :
    Option QueueTask × QueueState :=
  pop_loop queue_name (process_scheduled_tasks s queue_name now) priorityOrder

/-- `AsyncQueue.complete_task`: `SREM` the task's record from the
processing set; always returns `True` when the store is reachable. -/
def complete_task (s : QueueState) (t : QueueTask) : Bool × QueueState :=
  let task_data := task_to_dict t
  let pr := srem (s.processing t.queue_name) task_data
  (true, { s with processing := updateFn s.processing t.queue_name pr })

/-- `AsyncQueue.fail_task`: remove the record from processing; if
`retry_count < max_retries`, mutate the task (increment `retry_count`, set
`delay_seconds = min(2 ** retry_count * 60, 3600)` with the incremented
count, set `scheduled_at = now + delay_seconds`) and re-`enqueue` it,
returning `enqueue`'s result; otherwise `LPUSH` the record extended with
`error_message` and `failed_at = now` onto the failed list and return
`False`.  The middle component is the (possibly mutated) task object. -/
def fail_task (s : QueueState) (t : QueueTask) (error_message : Option String)
    (now : Nat) : Bool × QueueTask × QueueState :=
  let task_data := task_to_dict t
  let pr := srem (s.processing t.queue_name) task_data
  let s0 : QueueState :=
    { s with processing := updateFn s.processing t.queue_name pr }
  if t.retry_count < t.max_retries then
    let delay := min (2 ^ (t.retry_count + 1) * 60) 3600
    let t' : QueueTask :=
      { t with retry_count := t.retry_count + 1, delay_seconds := delay,
               scheduled_at := now + delay }
    let r := enqueue s0 t'
    (r.1, t', r.2)
  else
    let failed_data : FailedRecord :=
      { task := task_to_dict t, error_message := error_message, failed_at := now }
    let fl := failed_data :: s0.failed t.queue_name
    (false, t, { s0 with failed := updateFn s0.failed t.queue_name fl })

/-- `AsyncQueue._process_task`: look the processor up by `task_type`; when
none is registered, `fail_task` with the "No processor ..." message; when
the processor returns normally, `complete_task`; when it raises,
`fail_task` with the stringified error.  Processors are modelled as
`String → Except String String` (payload in, result or raised error out);
the registry is the `task_processors` dict. -/
def process_task (registry : String → Option (String → Except String String))
    (s : QueueState) (t : QueueTask) (now : Nat) : QueueState :=
  match registry t.task_type with
  | none =>
    (fail_task s t (some ("No processor for task type: " ++ t.task_type)) now).2.2
  | some proc =>
    match proc t.payload with
    | .ok _ => (complete_task s t).2
    | .error e => (fail_task s t (some e) now).2.2

/-- Iterated `fail_task` on the same (mutated) task object: the scenario of
a processor that always fails.  Returns the task and state after `n`
failures. -/
def iterate_fail : QueueState → QueueTask → Option String → Nat → Nat →
    QueueTask × QueueState
  | s, t, _, _, 0 => (t, s)
  | s, t, msg, now, n + 1 =>
    let r := fail_task s t msg now
    iterate_fail r.2.2 r.2.1 msg now n

/-- The `delay_seconds` values produced by `n` successive failures of the
same task. -/
def fail_delays : QueueState → QueueTask → Option String → Nat → Nat → List Nat
  | _, _, _, _, 0 => []
  | s, t, msg, now, n + 1 =>
    let r := fail_task s t msg now
    r.2.1.delay_seconds :: fail_delays r.2.2 r.2.1 msg now n

/-- A concrete sample task (queue "notif", type "send") used to instantiate
the theorems below at specific inputs. -/
def exTask (idStr : String) (p : QueuePriority) (mr rc ds : Nat) : QueueTask :=
  mk_queue_task 0 idStr "notif" "send" "pay" p mr rc ds none none

/-- The retry-budget invariant on a stored task record. -/
def DictInv (d : TaskDict) : Prop := d.retry_count ≤ d.max_retries

/-- The retry-budget invariant on a whole store state: every record in a
ready list, the scheduled set or a processing set respects its budget
(failed entries are terminal and exempt). -/
def StateInv (s : QueueState) : Prop :=
  (∀ k, ∀ d ∈ s.ready k, DictInv d) ∧
  (∀ q, ∀ e ∈ s.scheduled q, DictInv e.1) ∧
  (∀ q, ∀ d ∈ s.processing q, DictInv d)

/-! ### Helper lemmas -/

theorem ofValue_value (p : QueuePriority) :
    QueuePriority.ofValue p.value = some p := by
  cases p <;> rfl

theorem enqueue_fst (s : QueueState) (t : QueueTask) : (enqueue s t).1 = true := by
  unfold enqueue
  split <;> rfl

theorem td_getLast_singleton (a : TaskDict) :
    ([a] : List TaskDict).getLast? = some a := rfl

theorem td_getLast_cons_cons (a b : TaskDict) (l : List TaskDict) :
    (a :: b :: l).getLast? = (b :: l).getLast? := rfl

theorem td_dropLast_singleton (a : TaskDict) :
    ([a] : List TaskDict).dropLast = [] := rfl

theorem td_dropLast_cons_cons (a b : TaskDict) (l : List TaskDict) :
    (a :: b :: l).dropLast = a :: (b :: l).dropLast := rfl

theorem backoff_delay_pos (n : Nat) : 0 < min (2 ^ (n + 1) * 60) 3600 :=
  lt_min (Nat.mul_pos (pow_pos (by norm_num) _) (by norm_num)) (by norm_num)

/-- On the retry branch, `fail_task` increments the retry count, applies
the capped exponential backoff, and re-enqueues through the scheduled set. -/
theorem fail_task_retry_eq (s : QueueState) (t : QueueTask) (msg : Option String)
    (now : Nat) (h : t.retry_count < t.max_retries) :
    fail_task s t msg now =
      (true,
        { t with retry_count := t.retry_count + 1,
                 delay_seconds := min (2 ^ (t.retry_count + 1) * 60) 3600,
                 scheduled_at := now + min (2 ^ (t.retry_count + 1) * 60) 3600 },
        { s with
          processing := updateFn s.processing t.queue_name
            (srem (s.processing t.queue_name) (task_to_dict t)),
          scheduled := updateFn s.scheduled t.queue_name
            (zadd (s.scheduled t.queue_name)
              (enqueue_task_data
                { t with retry_count := t.retry_count + 1,
                         delay_seconds := min (2 ^ (t.retry_count + 1) * 60) 3600,
                         scheduled_at := now + min (2 ^ (t.retry_count + 1) * 60) 3600 })
              (now + min (2 ^ (t.retry_count + 1) * 60) 3600)) }) := by
  simp [fail_task, enqueue, h, backoff_delay_pos t.retry_count]

/-- On the terminal branch, `fail_task` leaves the task unchanged, pushes a
failed record and returns `false`. -/
theorem fail_task_terminal_eq (s : QueueState) (t : QueueTask) (msg : Option String)
    (now : Nat) (h : t.max_retries ≤ t.retry_count) :
    fail_task s t msg now =
      (false, t,
        { s with
          processing := updateFn s.processing t.queue_name
            (srem (s.processing t.queue_name) (task_to_dict t)),
          failed := updateFn s.failed t.queue_name
            ({ task := task_to_dict t, error_message := msg, failed_at := now } ::
              s.failed t.queue_name) }) := by
  have h' : ¬ t.retry_count < t.max_retries := Nat.not_lt.mpr h
  simp [fail_task, h']

theorem srem_srem (l : List TaskDict) (d : TaskDict) :
    srem (srem l d) d = srem l d := by
  simp [srem, List.filter_filter]

theorem srem_of_not_mem (l : List TaskDict) (d : TaskDict) (h : d ∉ l) :
    srem l d = l := by
  refine List.filter_eq_self.mpr fun a ha => ?_
  simp only [decide_eq_true_eq]
  exact fun he => h (he ▸ ha)

theorem updateFn_same {α β : Type} [DecidableEq α] (f : α → β) (a : α) (b : β) :
    updateFn f a b a = b := by
  simp [updateFn]

theorem updateFn_self {α β : Type} [DecidableEq α] (f : α → β) (a : α) :
    updateFn f a (f a) = f := by
  funext x
  by_cases h : x = a <;> simp [updateFn, h]

theorem updateFn_idem {α β : Type} [DecidableEq α] (f : α → β) (a : α) (b b' : β) :
    updateFn (updateFn f a b) a b' = updateFn f a b' := by
  funext x
  by_cases h : x = a <;> simp [updateFn, h]

theorem dict_to_task_delay_zero (d : TaskDict) (t' : QueueTask)
    (h : dict_to_task d = some t') : t'.delay_seconds = 0 := by
  unfold dict_to_task at h
  cases hp : QueuePriority.ofValue d.priority with
  | none => rw [hp] at h; simp at h
  | some p =>
    rw [hp] at h
    simp only [Option.map_some', Option.some.injEq] at h
    rw [← h]

theorem dict_to_task_enqueue_data (t : QueueTask) :
    dict_to_task (enqueue_task_data t) = some { t with delay_seconds := 0 } := by
  simp [dict_to_task, enqueue_task_data, ofValue_value]

theorem queue_task_eta_delay (t : QueueTask) (h : t.delay_seconds = 0) :
    ({ t with delay_seconds := 0 } : QueueTask) = t := by
  rw [← h]

theorem pop_loop_delay_zero (qn : String) :
    ∀ (ps : List QueuePriority) (s : QueueState) (t' : QueueTask),
      (pop_loop qn s ps).1 = some t' → t'.delay_seconds = 0 := by
  intro ps
  induction ps with
  | nil => intro s t' h; simp [pop_loop] at h
  | cons p rest ih =>
    intro s t' h
    unfold pop_loop at h
    cases hg : (s.ready (qn, p)).getLast? with
    | none =>
      rw [hg] at h
      exact ih _ _ h
    | some d =>
      rw [hg] at h
      exact dict_to_task_delay_zero _ _ h

/-! ### Claim theorems -/

/-- C5 counterexample: constructing a `QueueTask` with empty `queue_name`
and empty `task_type` does not fail — the dataclass performs no
validation — and `enqueue` accepts the resulting task, so nothing rejects
it before the store. -/
theorem queue_task_empty_accepted :
    (mk_queue_task 0 "t1" "" "" "pay" .normal 3 0 0 none none).queue_name = "" ∧
    (mk_queue_task 0 "t1" "" "" "pay" .normal 3 0 0 none none).task_type = "" ∧
    (enqueue emptyState (mk_queue_task 0 "t1" "" "" "pay" .normal 3 0 0 none none)).1
      = true := by
  decide

/-- C5 (amended): `QueueTask` construction is total: for every choice of
fields — empty strings included — it succeeds, keeps the given
`queue_name` and `task_type` verbatim, and the task is accepted by
`enqueue`; no `InvalidArgument` rejection exists. -/
theorem queue_task_construction_total (now : Nat) (i qn tt pl : String)
    (p : QueuePriority) (mr rc ds : Nat) (ca sa : Option Nat) :
    (mk_queue_task now i qn tt pl p mr rc ds ca sa).queue_name = qn ∧
    (mk_queue_task now i qn tt pl p mr rc ds ca sa).task_type = tt ∧
    (enqueue emptyState (mk_queue_task now i qn tt pl p mr rc ds ca sa)).1 = true :=
  ⟨rfl, rfl, enqueue_fst _ _⟩

/-- C8: `complete_task` always reports success, touches nothing but the
processing set, is a no-op when the task's record is already absent from
processing, and completing twice equals completing once. -/
theorem complete_task_idempotent (s : QueueState) (t : QueueTask) :
    (complete_task s t).1 = true ∧
    (complete_task s t).2.ready = s.ready ∧
    (complete_task s t).2.scheduled = s.scheduled ∧
    (complete_task s t).2.failed = s.failed ∧
    (task_to_dict t ∉ s.processing t.queue_name → (complete_task s t).2 = s) ∧
    complete_task (complete_task s t).2 t = complete_task s t := by
  refine ⟨rfl, rfl, rfl, rfl, ?_, ?_⟩
  · intro h
    simp only [complete_task]
    rw [srem_of_not_mem _ _ h, updateFn_self]
  · simp only [complete_task, updateFn_same]
    rw [srem_srem, updateFn_idem]

/-- C8 witness: completing a task that was never in processing leaves the
fresh store unchanged. -/
theorem complete_task_idempotent_witness :
    (complete_task emptyState (exTask "w8" .normal 3 0 0)).2 = emptyState :=
  (complete_task_idempotent emptyState (exTask "w8" .normal 3 0 0)).2.2.2.2.1
    (by decide)

/-- C10: when the retry budget is exhausted, `fail_task` returns `false`
even though the append to the failed list succeeds (the new record is at
its head), and `fail_task` returns `true` exactly on the retry path. -/
theorem fail_task_false_on_terminal (s : QueueState) (t : QueueTask)
    (msg : Option String) (now : Nat) (h : t.max_retries ≤ t.retry_count) :
    (fail_task s t msg now).1 = false ∧
    (fail_task s t msg now).2.2.failed t.queue_name =
      { task := task_to_dict t, error_message := msg, failed_at := now } ::
        s.failed t.queue_name ∧
    (∀ (s' : QueueState) (t' : QueueTask) (m : Option String) (n : Nat),
      (fail_task s' t' m n).1 = true ↔ t'.retry_count < t'.max_retries) := by
  refine ⟨?_, ?_, ?_⟩
  · rw [fail_task_terminal_eq s t msg now h]
  · rw [fail_task_terminal_eq s t msg now h]
    simp [updateFn]
  · intro s' t' m n
    by_cases h' : t'.retry_count < t'.max_retries
    · rw [fail_task_retry_eq _ _ _ _ h']
      simpa using h'
    · rw [fail_task_terminal_eq _ _ _ _ (Nat.not_lt.mp h')]
      simpa using h'

/-- C10 witness: a task with `max_retries = 0` failing once yields `false`. -/
theorem fail_task_false_on_terminal_witness :
    (fail_task emptyState (exTask "w10" .normal 0 0 0) (some "boom") 7).1 = false :=
  (fail_task_false_on_terminal emptyState (exTask "w10" .normal 0 0 0) (some "boom") 7
    (by decide)).1

/-- C2: a failure under budget increments `retry_count`, sets
`delay_seconds = min(2 ^ retry_count * 60, 3600)` computed with the
incremented count, sets `scheduled_at = now + delay`, and re-enqueues the
task through the scheduled set only (every ready list is untouched); a
task with `max_retries = 5` sees the delay sequence 120, 240, 480, 960,
1920 and its 6th failure lands in the failed list instead of being
rescheduled. -/
theorem fail_task_backoff_schedule :
    (∀ (s : QueueState) (t : QueueTask) (msg : Option String) (now : Nat),
      t.retry_count < t.max_retries →
      (fail_task s t msg now).1 = true ∧
      (fail_task s t msg now).2.1.retry_count = t.retry_count + 1 ∧
      (fail_task s t msg now).2.1.delay_seconds =
        min (2 ^ (t.retry_count + 1) * 60) 3600 ∧
      (fail_task s t msg now).2.1.scheduled_at =
        now + min (2 ^ (t.retry_count + 1) * 60) 3600 ∧
      (fail_task s t msg now).2.2.scheduled t.queue_name =
        zadd (s.scheduled t.queue_name)
          (enqueue_task_data (fail_task s t msg now).2.1)
          (now + min (2 ^ (t.retry_count + 1) * 60) 3600) ∧
      (∀ k, (fail_task s t msg now).2.2.ready k = s.ready k)) ∧
    fail_delays emptyState (exTask "t1" .normal 5 0 0) (some "boom") 0 5 =
      [120, 240, 480, 960, 1920] ∧
    (fail_task (iterate_fail emptyState (exTask "t1" .normal 5 0 0) (some "boom") 0 5).2
      (iterate_fail emptyState (exTask "t1" .normal 5 0 0) (some "boom") 0 5).1
      (some "boom") 0).1 = false ∧
    ((fail_task (iterate_fail emptyState (exTask "t1" .normal 5 0 0) (some "boom") 0 5).2
      (iterate_fail emptyState (exTask "t1" .normal 5 0 0) (some "boom") 0 5).1
      (some "boom") 0).2.2.failed "notif").length = 1 := by
  refine ⟨?_, by decide, by decide, by decide⟩
  intro s t msg now h
  rw [fail_task_retry_eq s t msg now h]
  refine ⟨rfl, rfl, rfl, rfl, ?_, fun k => rfl⟩
  simp [updateFn]

/-- C2 witness: the first failure of a fresh task with budget 3 succeeds
and bumps `retry_count` from 0 to 1. -/
theorem fail_task_backoff_schedule_witness :
    (fail_task emptyState (exTask "w2" .normal 3 0 0) none 6).1 = true ∧
    (fail_task emptyState (exTask "w2" .normal 3 0 0) none 6).2.1.retry_count =
      (exTask "w2" .normal 3 0 0).retry_count + 1 :=
  ⟨(fail_task_backoff_schedule.1 emptyState (exTask "w2" .normal 3 0 0) none 6
      (by decide)).1,
   (fail_task_backoff_schedule.1 emptyState (exTask "w2" .normal 3 0 0) none 6
      (by decide)).2.1⟩

/-- C7: when no processor is registered for the task's type, the worker's
`_process_task` step equals `fail_task` with the "No processor for task
type" message, so the miss is subject to the ordinary retry/backoff
policy: under budget it is rescheduled (ready lists untouched), out of
budget it lands in the failed list with that message; being a total
function, it raises nothing and cannot halt the loop. -/
theorem process_task_missing_processor
    (registry : String → Option (String → Except String String))
    (s : QueueState) (t : QueueTask) (now : Nat)
    (h : registry t.task_type = none) :
    process_task registry s t now =
      (fail_task s t (some ("No processor for task type: " ++ t.task_type)) now).2.2 ∧
    (t.max_retries ≤ t.retry_count →
      (process_task registry s t now).failed t.queue_name =
        { task := task_to_dict t,
          error_message := some ("No processor for task type: " ++ t.task_type),
          failed_at := now } :: s.failed t.queue_name) ∧
    (t.retry_count < t.max_retries →
      (∀ k, (process_task registry s t now).ready k = s.ready k) ∧
      (process_task registry s t now).scheduled t.queue_name =
        zadd (s.scheduled t.queue_name)
          (enqueue_task_data
            { t with retry_count := t.retry_count + 1,
                     delay_seconds := min (2 ^ (t.retry_count + 1) * 60) 3600,
                     scheduled_at := now + min (2 ^ (t.retry_count + 1) * 60) 3600 })
          (now + min (2 ^ (t.retry_count + 1) * 60) 3600)) := by
  have heq : process_task registry s t now =
      (fail_task s t (some ("No processor for task type: " ++ t.task_type)) now).2.2 := by
    simp [process_task, h]
  refine ⟨heq, ?_, ?_⟩
  · intro hterm
    rw [heq, fail_task_terminal_eq _ _ _ _ hterm]
    simp [updateFn]
  · intro hretry
    rw [heq, fail_task_retry_eq _ _ _ _ hretry]
    exact ⟨fun k => rfl, by simp [updateFn]⟩

/-- C7 witness: with an empty registry, processing a task takes exactly
the `fail_task` path with the "No processor" message. -/
theorem process_task_missing_processor_witness :
    process_task (fun _ => none) emptyState (exTask "w7" .normal 3 0 0) 0 =
      (fail_task emptyState (exTask "w7" .normal 3 0 0)
        (some ("No processor for task type: " ++ (exTask "w7" .normal 3 0 0).task_type))
        0).2.2 :=
  (process_task_missing_processor (fun _ => none) emptyState (exTask "w7" .normal 3 0 0)
    0 rfl).1

/-- C9: the serialized record drops `delay_seconds` (`task_to_dict` of two
tasks differing only there coincide), `enqueue` writes exactly the
`task_to_dict` record, deserializing restores every other field while
`delay_seconds` comes back as the dataclass default 0, and consequently
every task `dequeue` returns has `delay_seconds = 0`. -/
theorem task_dict_round_trip (t : QueueTask) (ds : Nat) :
    task_to_dict { t with delay_seconds := ds } = task_to_dict t ∧
    enqueue_task_data t = task_to_dict t ∧
    dict_to_task (task_to_dict t) = some { t with delay_seconds := 0 } ∧
    (∀ (s : QueueState) (q : String) (now : Nat) (t' : QueueTask),
      (dequeue s q now).1 = some t' → t'.delay_seconds = 0) := by
  refine ⟨rfl, rfl, ?_, ?_⟩
  · simp [dict_to_task, task_to_dict, ofValue_value]
  · intro s q now t' h
    exact pop_loop_delay_zero q priorityOrder (process_scheduled_tasks s q now) t' h

/-- C9 witness: a task enqueued with no delay is returned unchanged by
`dequeue`, and its `delay_seconds` is 0. -/
theorem task_dict_round_trip_witness :
    (dequeue (enqueue emptyState (exTask "w9" .normal 3 0 0)).2 "notif" 0).1 =
      some (exTask "w9" .normal 3 0 0) ∧
    (exTask "w9" .normal 3 0 0).delay_seconds = 0 :=
  ⟨by decide,
   (task_dict_round_trip (exTask "w9" .normal 3 0 0) 0).2.2.2
     (enqueue emptyState (exTask "w9" .normal 3 0 0)).2 "notif" 0
     (exTask "w9" .normal 3 0 0) (by decide)⟩

/-- C3: within one priority level the ready list is FIFO: two NORMAL
tasks A then B enqueued without delay to the same queue are dequeued A
first, then B. -/
theorem dequeue_fifo_within_priority (tA tB : QueueTask) (q : String) (n1 n2 : Nat)
    (hA : tA.priority = .normal) (hB : tB.priority = .normal)
    (hqA : tA.queue_name = q) (hqB : tB.queue_name = q)
    (hdA : tA.delay_seconds = 0) (hdB : tB.delay_seconds = 0) :
    (dequeue (enqueue (enqueue emptyState tA).2 tB).2 q n1).1 = some tA ∧
    (dequeue (dequeue (enqueue (enqueue emptyState tA).2 tB).2 q n1).2 q n2).1 =
      some tB := by
  have etaA : ({ id := tA.id, queue_name := q, task_type := tA.task_type,
                 payload := tA.payload, priority := QueuePriority.normal,
                 max_retries := tA.max_retries, retry_count := tA.retry_count,
                 delay_seconds := 0, created_at := tA.created_at,
                 scheduled_at := tA.scheduled_at } : QueueTask) = tA := by
    rw [← hA, ← hqA, ← hdA]
  have etaB : ({ id := tB.id, queue_name := q, task_type := tB.task_type,
                 payload := tB.payload, priority := QueuePriority.normal,
                 max_retries := tB.max_retries, retry_count := tB.retry_count,
                 delay_seconds := 0, created_at := tB.created_at,
                 scheduled_at := tB.scheduled_at } : QueueTask) = tB := by
    rw [← hB, ← hqB, ← hdB]
  constructor <;>
    simp [dequeue, process_scheduled_tasks, sweep_loop, pop_loop, priorityOrder,
      enqueue, emptyState, updateFn, hA, hB, hqA, hqB, hdA, hdB,
      td_getLast_singleton, td_getLast_cons_cons, td_dropLast_singleton,
      td_dropLast_cons_cons, dict_to_task_enqueue_data, etaA, etaB]

/-- C3 witness: concrete NORMAL tasks A then B come back in order A, B. -/
theorem dequeue_fifo_within_priority_witness :
    (dequeue (enqueue (enqueue emptyState (exTask "A" .normal 3 0 0)).2
        (exTask "B" .normal 3 0 0)).2 "notif" 0).1 = some (exTask "A" .normal 3 0 0) ∧
    (dequeue (dequeue (enqueue (enqueue emptyState (exTask "A" .normal 3 0 0)).2
        (exTask "B" .normal 3 0 0)).2 "notif" 0).2 "notif" 0).1 =
      some (exTask "B" .normal 3 0 0) :=
  dequeue_fifo_within_priority (exTask "A" .normal 3 0 0) (exTask "B" .normal 3 0 0)
    "notif" 0 0 (by decide) (by decide) (by decide) (by decide) (by decide) (by decide)

/-- C1: strict priority ordering: LOW, NORMAL, HIGH and CRITICAL tasks
enqueued in that order (all without delay, same queue) are dequeued in
order CRITICAL, HIGH, NORMAL, LOW — the ready CRITICAL task is returned
before every lower-priority task although those were enqueued earlier. -/
theorem dequeue_priority_order (tL tN tH tC : QueueTask) (q : String)
    (n1 n2 n3 n4 : Nat)
    (hL : tL.priority = .low) (hN : tN.priority = .normal)
    (hH : tH.priority = .high) (hC : tC.priority = .critical)
    (hqL : tL.queue_name = q) (hqN : tN.queue_name = q)
    (hqH : tH.queue_name = q) (hqC : tC.queue_name = q)
    (hdL : tL.delay_seconds = 0) (hdN : tN.delay_seconds = 0)
    (hdH : tH.delay_seconds = 0) (hdC : tC.delay_seconds = 0) :
    (dequeue ((enqueue ((enqueue ((enqueue ((enqueue emptyState tL).2) tN).2) tH).2)
        tC).2) q n1).1 = some tC ∧
    (dequeue (dequeue ((enqueue ((enqueue ((enqueue ((enqueue emptyState tL).2)
        tN).2) tH).2) tC).2) q n1).2 q n2).1 = some tH ∧
    (dequeue (dequeue (dequeue ((enqueue ((enqueue ((enqueue ((enqueue emptyState
        tL).2) tN).2) tH).2) tC).2) q n1).2 q n2).2 q n3).1 = some tN ∧
    (dequeue (dequeue (dequeue (dequeue ((enqueue ((enqueue ((enqueue ((enqueue
        emptyState tL).2) tN).2) tH).2) tC).2) q n1).2 q n2).2 q n3).2 q n4).1 =
      some tL := by
  have etaL : ({ id := tL.id, queue_name := q, task_type := tL.task_type,
                 payload := tL.payload, priority := QueuePriority.low,
                 max_retries := tL.max_retries, retry_count := tL.retry_count,
                 delay_seconds := 0, created_at := tL.created_at,
                 scheduled_at := tL.scheduled_at } : QueueTask) = tL := by
    rw [← hL, ← hqL, ← hdL]
  have etaN : ({ id := tN.id, queue_name := q, task_type := tN.task_type,
                 payload := tN.payload, priority := QueuePriority.normal,
                 max_retries := tN.max_retries, retry_count := tN.retry_count,
                 delay_seconds := 0, created_at := tN.created_at,
                 scheduled_at := tN.scheduled_at } : QueueTask) = tN := by
    rw [← hN, ← hqN, ← hdN]
  have etaH : ({ id := tH.id, queue_name := q, task_type := tH.task_type,
                 payload := tH.payload, priority := QueuePriority.high,
                 max_retries := tH.max_retries, retry_count := tH.retry_count,
                 delay_seconds := 0, created_at := tH.created_at,
                 scheduled_at := tH.scheduled_at } : QueueTask) = tH := by
    rw [← hH, ← hqH, ← hdH]
  have etaC : ({ id := tC.id, queue_name := q, task_type := tC.task_type,
                 payload := tC.payload, priority := QueuePriority.critical,
                 max_retries := tC.max_retries, retry_count := tC.retry_count,
                 delay_seconds := 0, created_at := tC.created_at,
                 scheduled_at := tC.scheduled_at } : QueueTask) = tC := by
    rw [← hC, ← hqC, ← hdC]
  refine ⟨?_, ?_, ?_, ?_⟩ <;>
    simp [dequeue, process_scheduled_tasks, sweep_loop, pop_loop, priorityOrder,
      enqueue, emptyState, updateFn, hL, hN, hH, hC, hqL, hqN, hqH, hqC,
      hdL, hdN, hdH, hdC, td_getLast_singleton, td_getLast_cons_cons,
      td_dropLast_singleton, td_dropLast_cons_cons, dict_to_task_enqueue_data,
      etaL, etaN, etaH, etaC]

/-- C1 witness: concrete LOW, NORMAL, HIGH, CRITICAL tasks come back in
order CRITICAL, HIGH, NORMAL, LOW. -/
theorem dequeue_priority_order_witness :
    (dequeue ((enqueue ((enqueue ((enqueue ((enqueue emptyState
        (exTask "L" .low 3 0 0)).2) (exTask "N" .normal 3 0 0)).2)
        (exTask "H" .high 3 0 0)).2) (exTask "C" .critical 3 0 0)).2)
      "notif" 0).1 = some (exTask "C" .critical 3 0 0) ∧
    (dequeue (dequeue ((enqueue ((enqueue ((enqueue ((enqueue emptyState
        (exTask "L" .low 3 0 0)).2) (exTask "N" .normal 3 0 0)).2)
        (exTask "H" .high 3 0 0)).2) (exTask "C" .critical 3 0 0)).2)
      "notif" 0).2 "notif" 0).1 = some (exTask "H" .high 3 0 0) ∧
    (dequeue (dequeue (dequeue ((enqueue ((enqueue ((enqueue ((enqueue emptyState
        (exTask "L" .low 3 0 0)).2) (exTask "N" .normal 3 0 0)).2)
        (exTask "H" .high 3 0 0)).2) (exTask "C" .critical 3 0 0)).2)
      "notif" 0).2 "notif" 0).2 "notif" 0).1 = some (exTask "N" .normal 3 0 0) ∧
    (dequeue (dequeue (dequeue (dequeue ((enqueue ((enqueue ((enqueue ((enqueue
        emptyState (exTask "L" .low 3 0 0)).2) (exTask "N" .normal 3 0 0)).2)
        (exTask "H" .high 3 0 0)).2) (exTask "C" .critical 3 0 0)).2)
      "notif" 0).2 "notif" 0).2 "notif" 0).2 "notif" 0).1 =
      some (exTask "L" .low 3 0 0) :=
  dequeue_priority_order (exTask "L" .low 3 0 0) (exTask "N" .normal 3 0 0)
    (exTask "H" .high 3 0 0) (exTask "C" .critical 3 0 0) "notif" 0 0 0 0
    (by decide) (by decide) (by decide) (by decide) (by decide) (by decide)
    (by decide) (by decide) (by decide) (by decide) (by decide) (by decide)

/-- C6: a task enqueued with a positive delay goes to the scheduled set
(no ready list is touched); while `now` is before its `scheduled_at`,
`dequeue` returns nothing and leaves it scheduled; from `scheduled_at` on,
the sweep at the start of `dequeue` moves it to the ready list of its
recorded priority and `dequeue` returns it (with `delay_seconds` reset to
0 by deserialization). -/
theorem delayed_task_visibility (t : QueueTask) (h : 0 < t.delay_seconds) :
    (enqueue emptyState t).2.scheduled t.queue_name =
      [(enqueue_task_data t, t.scheduled_at)] ∧
    (∀ k, (enqueue emptyState t).2.ready k = []) ∧
    (∀ now, now < t.scheduled_at →
      (dequeue (enqueue emptyState t).2 t.queue_name now).1 = none ∧
      (dequeue (enqueue emptyState t).2 t.queue_name now).2.scheduled t.queue_name =
        [(enqueue_task_data t, t.scheduled_at)]) ∧
    (∀ now, t.scheduled_at ≤ now →
      (dequeue (enqueue emptyState t).2 t.queue_name now).1 =
        some { t with delay_seconds := 0 } ∧
      (dequeue (enqueue emptyState t).2 t.queue_name now).2.scheduled t.queue_name =
        []) := by
  refine ⟨?_, ?_, ?_, ?_⟩
  · simp [enqueue, h, updateFn, zadd, insertByScore, emptyState]
  · intro k
    simp [enqueue, h, emptyState]
  · intro now hnow
    have hns : ¬ (t.scheduled_at ≤ now) := Nat.not_le.mpr hnow
    constructor <;>
      simp [dequeue, process_scheduled_tasks, sweep_loop, pop_loop, priorityOrder,
        enqueue, emptyState, updateFn, zadd, insertByScore, h, hns]
  · intro now hnow
    cases hp : t.priority <;>
      constructor <;>
        simp [dequeue, process_scheduled_tasks, sweep_loop, pop_loop, priorityOrder,
          enqueue, emptyState, updateFn, zadd, zrem, insertByScore,
          enqueue_task_data, dict_to_task, ofValue_value, h, hnow, hp]

/-- C6 witness: a task with delay 10 (due at 10) is invisible at time 9
and dequeued at time 10. -/
theorem delayed_task_visibility_witness :
    (dequeue (enqueue emptyState (exTask "w6" .normal 3 0 10)).2 "notif" 9).1 =
      none ∧
    (dequeue (enqueue emptyState (exTask "w6" .normal 3 0 10)).2 "notif" 10).1 =
      some { exTask "w6" .normal 3 0 10 with delay_seconds := 0 } :=
  ⟨((delayed_task_visibility (exTask "w6" .normal 3 0 10) (by decide)).2.2.1 9
      (by decide)).1,
   ((delayed_task_visibility (exTask "w6" .normal 3 0 10) (by decide)).2.2.2 10
      (by decide)).1⟩

theorem updateFn_apply {α β : Type} [DecidableEq α] (f : α → β) (a : α) (b : β)
    (x : α) : updateFn f a b x = if x = a then b else f x := rfl

theorem mem_updateFn_list {α γ : Type} [DecidableEq α] (f : α → List γ) (a : α)
    (b : List γ) (k : α) (x : γ) (hx : x ∈ updateFn f a b k) :
    (k = a ∧ x ∈ b) ∨ x ∈ f k := by
  by_cases hk : k = a
  · subst hk
    rw [updateFn_same] at hx
    exact Or.inl ⟨rfl, hx⟩
  · rw [updateFn_apply, if_neg hk] at hx
    exact Or.inr hx

theorem mem_insertByScore (l : List (TaskDict × Nat)) (d : TaskDict) (sc : Nat)
    (x : TaskDict × Nat) :
    x ∈ insertByScore l d sc ↔ x = (d, sc) ∨ x ∈ l := by
  induction l with
  | nil => simp [insertByScore]
  | cons e rest ih =>
    by_cases hlt : sc < e.2 <;> simp [insertByScore, hlt, ih] <;> tauto

theorem mem_zadd (l : List (TaskDict × Nat)) (d : TaskDict) (sc : Nat)
    (x : TaskDict × Nat) (hx : x ∈ zadd l d sc) : x = (d, sc) ∨ x ∈ l := by
  unfold zadd at hx
  rcases (mem_insertByScore _ _ _ _).mp hx with h | h
  · exact Or.inl h
  · exact Or.inr (List.mem_of_mem_filter h)

theorem mem_sadd (l : List TaskDict) (d x : TaskDict) (hx : x ∈ sadd l d) :
    x = d ∨ x ∈ l := by
  unfold sadd at hx
  by_cases hm : d ∈ l
  · rw [if_pos hm] at hx
    exact Or.inr hx
  · rw [if_neg hm] at hx
    exact List.mem_cons.mp hx

theorem dict_to_task_fields (d : TaskDict) (t' : QueueTask)
    (h : dict_to_task d = some t') :
    t'.retry_count = d.retry_count ∧ t'.max_retries = d.max_retries := by
  unfold dict_to_task at h
  cases hp : QueuePriority.ofValue d.priority with
  | none => rw [hp] at h; simp at h
  | some p =>
    rw [hp] at h
    simp only [Option.map_some', Option.some.injEq] at h
    rw [← h]
    exact ⟨rfl, rfl⟩

theorem enqueue_state_delay_pos (s : QueueState) (t : QueueTask)
    (hd : 0 < t.delay_seconds) :
    (enqueue s t).2 =
      { s with
        scheduled := updateFn s.scheduled t.queue_name
          (zadd (s.scheduled t.queue_name) (enqueue_task_data t) t.scheduled_at) } := by
  simp [enqueue, hd]

theorem enqueue_state_no_delay (s : QueueState) (t : QueueTask)
    (hd : ¬ 0 < t.delay_seconds) :
    (enqueue s t).2 =
      { s with
        ready := updateFn s.ready (t.queue_name, t.priority)
          (enqueue_task_data t :: s.ready (t.queue_name, t.priority)) } := by
  simp [enqueue, hd]

theorem enqueue_preserves_inv (s : QueueState) (t : QueueTask) (hs : StateInv s)
    (ht : t.retry_count ≤ t.max_retries) : StateInv (enqueue s t).2 := by
  by_cases hd : 0 < t.delay_seconds
  · rw [enqueue_state_delay_pos s t hd]
    refine ⟨hs.1, ?_, hs.2.2⟩
    intro q x hx
    rcases mem_updateFn_list s.scheduled t.queue_name
        (zadd (s.scheduled t.queue_name) (enqueue_task_data t) t.scheduled_at)
        q x hx with ⟨_, hx'⟩ | hx'
    · rcases mem_zadd (s.scheduled t.queue_name) (enqueue_task_data t)
          t.scheduled_at x hx' with he | he
      · rw [he]; exact ht
      · exact hs.2.1 t.queue_name x he
    · exact hs.2.1 q x hx'
  · rw [enqueue_state_no_delay s t hd]
    refine ⟨?_, hs.2.1, hs.2.2⟩
    intro k x hx
    rcases mem_updateFn_list s.ready (t.queue_name, t.priority)
        (enqueue_task_data t :: s.ready (t.queue_name, t.priority)) k x hx
      with ⟨_, hx'⟩ | hx'
    · rcases List.mem_cons.mp hx' with he | he
      · rw [he]; exact ht
      · exact hs.1 _ x he
    · exact hs.1 k x hx'

theorem sweep_loop_preserves_inv (qn : String) :
    ∀ (l : List (TaskDict × Nat)) (st : QueueState),
      StateInv st → (∀ e ∈ l, DictInv e.1) → StateInv (sweep_loop qn l st) := by
  intro l
  induction l with
  | nil =>
    intro st hs _
    simpa [sweep_loop] using hs
  | cons e rest ih =>
    intro st hs hl
    obtain ⟨d, sc⟩ := e
    have hst1 : StateInv
        { st with scheduled := updateFn st.scheduled qn (zrem (st.scheduled qn) d) } := by
      refine ⟨hs.1, ?_, hs.2.2⟩
      intro q x hx
      rcases mem_updateFn_list st.scheduled qn _ q x hx with ⟨_, hx'⟩ | hx'
      · exact hs.2.1 qn x (List.mem_of_mem_filter hx')
      · exact hs.2.1 q x hx'
    rw [sweep_loop]
    cases ho : QueuePriority.ofValue d.priority with
    | none => exact hst1
    | some p =>
      apply ih
      · refine ⟨?_, hst1.2.1, hst1.2.2⟩
        intro k x hx
        rcases mem_updateFn_list _ (qn, p) _ k x hx with ⟨_, hx'⟩ | hx'
        · rcases List.mem_cons.mp hx' with he | he
          · rw [he]
            exact hl (d, sc) (List.mem_cons_self _ _)
          · exact hst1.1 _ x he
        · exact hst1.1 k x hx'
      · intro e he
        exact hl e (List.mem_cons_of_mem _ he)

theorem process_scheduled_preserves_inv (s : QueueState) (qn : String) (now : Nat)
    (hs : StateInv s) : StateInv (process_scheduled_tasks s qn now) := by
  apply sweep_loop_preserves_inv qn _ s hs
  intro e he
  exact hs.2.1 qn e (List.mem_of_mem_filter he)

theorem pop_loop_preserves_inv (qn : String) :
    ∀ (ps : List QueuePriority) (s : QueueState), StateInv s →
      StateInv (pop_loop qn s ps).2 := by
  intro ps
  induction ps with
  | nil =>
    intro s hs
    simpa [pop_loop] using hs
  | cons p rest ih =>
    intro s hs
    rw [pop_loop]
    cases hg : (s.ready (qn, p)).getLast? with
    | none => exact ih s hs
    | some d =>
      have hd : DictInv d := hs.1 (qn, p) d (List.mem_of_mem_getLast? hg)
      refine ⟨?_, hs.2.1, ?_⟩
      · intro k x hx
        rcases mem_updateFn_list s.ready (qn, p) _ k x hx with ⟨_, hx'⟩ | hx'
        · exact hs.1 _ x (List.mem_of_mem_dropLast hx')
        · exact hs.1 k x hx'
      · intro q x hx
        rcases mem_updateFn_list _ qn _ q x hx with ⟨_, hx'⟩ | hx'
        · rcases mem_sadd _ _ _ hx' with he | he
          · rw [he]; exact hd
          · exact hs.2.2 qn x he
        · exact hs.2.2 q x hx'

theorem pop_loop_result_inv (qn : String) :
    ∀ (ps : List QueuePriority) (s : QueueState), StateInv s →
      ∀ t', (pop_loop qn s ps).1 = some t' → t'.retry_count ≤ t'.max_retries := by
  intro ps
  induction ps with
  | nil =>
    intro s _ t' h
    simp [pop_loop] at h
  | cons p rest ih =>
    intro s hs t' h
    unfold pop_loop at h
    cases hg : (s.ready (qn, p)).getLast? with
    | none =>
      rw [hg] at h
      exact ih s hs t' h
    | some d =>
      rw [hg] at h
      have hd : DictInv d := hs.1 (qn, p) d (List.mem_of_mem_getLast? hg)
      obtain ⟨h1, h2⟩ := dict_to_task_fields d t' h
      rw [h1, h2]
      exact hd

theorem complete_preserves_inv (s : QueueState) (t : QueueTask) (hs : StateInv s) :
    StateInv (complete_task s t).2 := by
  refine ⟨hs.1, hs.2.1, ?_⟩
  intro q x hx
  rcases mem_updateFn_list s.processing t.queue_name _ q x hx with ⟨_, hx'⟩ | hx'
  · exact hs.2.2 t.queue_name x (List.mem_of_mem_filter hx')
  · exact hs.2.2 q x hx'

theorem fail_preserves_inv (s : QueueState) (t : QueueTask) (msg : Option String)
    (now : Nat) (hs : StateInv s) :
    StateInv (fail_task s t msg now).2.2 := by
  have hpr : ∀ q x, x ∈ updateFn s.processing t.queue_name
      (srem (s.processing t.queue_name) (task_to_dict t)) q → DictInv x := by
    intro q x hx
    rcases mem_updateFn_list s.processing t.queue_name _ q x hx with ⟨_, hx'⟩ | hx'
    · exact hs.2.2 t.queue_name x (List.mem_of_mem_filter hx')
    · exact hs.2.2 q x hx'
  by_cases h : t.retry_count < t.max_retries
  · rw [fail_task_retry_eq s t msg now h]
    refine ⟨hs.1, ?_, hpr⟩
    intro q x hx
    rcases mem_updateFn_list s.scheduled t.queue_name
        (zadd (s.scheduled t.queue_name)
          (enqueue_task_data
            { t with retry_count := t.retry_count + 1,
                     delay_seconds := min (2 ^ (t.retry_count + 1) * 60) 3600,
                     scheduled_at := now + min (2 ^ (t.retry_count + 1) * 60) 3600 })
          (now + min (2 ^ (t.retry_count + 1) * 60) 3600))
        q x hx with ⟨_, hx'⟩ | hx'
    · rcases mem_zadd _ _ _ x hx' with he | he
      · rw [he]; exact h
      · exact hs.2.1 t.queue_name x he
    · exact hs.2.1 q x hx'
  · rw [fail_task_terminal_eq s t msg now (Nat.not_lt.mp h)]
    exact ⟨hs.1, hs.2.1, hpr⟩

/-- C4: `retry_count ≤ max_retries` holds in every reachable state: it
holds of the empty store, and it is preserved by `enqueue` (of a task
respecting its budget), `dequeue` (whose returned task also respects its
budget), `complete_task` and `fail_task`; a failure with the budget
exhausted returns the task unmutated and touches no ready list and no
scheduled set, only prepending a failed record — the task is never
re-enqueued — and a task with `max_retries = 0` takes that terminal path
on its first failure. -/
theorem retry_count_invariant :
    StateInv emptyState ∧
    (∀ (s : QueueState) (t : QueueTask), StateInv s →
      t.retry_count ≤ t.max_retries → StateInv (enqueue s t).2) ∧
    (∀ (s : QueueState) (q : String) (now : Nat), StateInv s →
      StateInv (dequeue s q now).2) ∧
    (∀ (s : QueueState) (q : String) (now : Nat) (t' : QueueTask), StateInv s →
      (dequeue s q now).1 = some t' → t'.retry_count ≤ t'.max_retries) ∧
    (∀ (s : QueueState) (t : QueueTask), StateInv s →
      StateInv (complete_task s t).2) ∧
    (∀ (s : QueueState) (t : QueueTask) (msg : Option String) (now : Nat),
      StateInv s → StateInv (fail_task s t msg now).2.2) ∧
    (∀ (s : QueueState) (t : QueueTask) (msg : Option String) (now : Nat),
      t.max_retries ≤ t.retry_count →
      (fail_task s t msg now).2.1 = t ∧
      (∀ q, (fail_task s t msg now).2.2.scheduled q = s.scheduled q) ∧
      (∀ k, (fail_task s t msg now).2.2.ready k = s.ready k) ∧
      (fail_task s t msg now).2.2.failed t.queue_name =
        { task := task_to_dict t, error_message := msg, failed_at := now } ::
          s.failed t.queue_name) ∧
    (∀ (s : QueueState) (t : QueueTask) (msg : Option String) (now : Nat),
      t.max_retries = 0 →
      (fail_task s t msg now).1 = false ∧
      (fail_task s t msg now).2.1.retry_count = t.retry_count ∧
      (∀ q, (fail_task s t msg now).2.2.scheduled q = s.scheduled q) ∧
      (fail_task s t msg now).2.2.failed t.queue_name =
        { task := task_to_dict t, error_message := msg, failed_at := now } ::
          s.failed t.queue_name) := by
  have hterm : ∀ (s : QueueState) (t : QueueTask) (msg : Option String) (now : Nat),
      t.max_retries ≤ t.retry_count →
      (fail_task s t msg now).1 = false ∧
      (fail_task s t msg now).2.1 = t ∧
      (∀ q, (fail_task s t msg now).2.2.scheduled q = s.scheduled q) ∧
      (∀ k, (fail_task s t msg now).2.2.ready k = s.ready k) ∧
      (fail_task s t msg now).2.2.failed t.queue_name =
        { task := task_to_dict t, error_message := msg, failed_at := now } ::
          s.failed t.queue_name := by
    intro s t msg now h
    rw [fail_task_terminal_eq s t msg now h]
    exact ⟨rfl, rfl, fun q => rfl, fun k => rfl, updateFn_same _ _ _⟩
  refine ⟨?_, enqueue_preserves_inv, ?_, ?_, complete_preserves_inv,
    fail_preserves_inv, ?_, ?_⟩
  · exact ⟨fun k d h => by simp [emptyState] at h,
      fun q e h => by simp [emptyState] at h,
      fun q d h => by simp [emptyState] at h⟩
  · intro s q now hs
    exact pop_loop_preserves_inv q priorityOrder _
      (process_scheduled_preserves_inv s q now hs)
  · intro s q now t' hs h
    exact pop_loop_result_inv q priorityOrder _
      (process_scheduled_preserves_inv s q now hs) t' h
  · intro s t msg now h
    exact ((hterm s t msg now h).2)
  · intro s t msg now h0
    have h : t.max_retries ≤ t.retry_count := h0 ▸ Nat.zero_le _
    obtain ⟨hf, htk, hsch, _, hfl⟩ := hterm s t msg now h
    exact ⟨hf, by rw [htk], hsch, hfl⟩

/-- C4 witness: the fresh store satisfies the invariant and still does
after enqueueing a budget-respecting task. -/
theorem retry_count_invariant_witness :
    StateInv (enqueue emptyState (exTask "w4" .normal 3 0 0)).2 :=
  retry_count_invariant.2.1 emptyState (exTask "w4" .normal 3 0 0)
    ⟨fun k d h => by simp [emptyState] at h,
     fun q e h => by simp [emptyState] at h,
     fun q d h => by simp [emptyState] at h⟩
    (by decide)

end EcommerceQueue
